import Mathlib

/-!
Verification of the material-lab core (src/App.tsx): the material catalog,
the material resolver embedded in the `Shape` component, the scene
composition in `Scene`, and the selection state of `App`.

Numeric literals from the source are embedded as rationals; JavaScript
truthiness on optional numeric fields (`undefined` and `0` are falsy) is
modelled explicitly.
-/

/-- One PBR material preset, mirroring an entry of the `materials` object
(App.tsx lines 21-157).  Optional feature fields default to absent, exactly
as in the source, where most presets simply do not write them. -/
structure MaterialDefinition where
  name : String
  category : String
  color : String
  metalness : ℚ
  roughness : ℚ
  envMapIntensity : Option ℚ := none
  transmission : Option ℚ := none
  thickness : Option ℚ := none
  emissive : Option String := none
  emissiveIntensity : Option ℚ := none
  iridescence : Option ℚ := none
  iridescenceIOR : Option ℚ := none
deriving DecidableEq

/-- App.tsx lines 23-30. -/
def chrome : MaterialDefinition :=
  { name := "Chrome", category := "metal", color := "#e8e8e8",
    metalness := 1, roughness := 0.05, envMapIntensity := some 1.5 }

/-- App.tsx lines 31-38. -/
def gold : MaterialDefinition :=
  { name := "Gold", category := "metal", color := "#ffd700",
    metalness := 1, roughness := 0.1, envMapIntensity := some 1.2 }

/-- App.tsx lines 39-46. -/
def copper : MaterialDefinition :=
  { name := "Copper", category := "metal", color := "#b87333",
    metalness := 1, roughness := 0.15, envMapIntensity := some 1.0 }

/-- App.tsx lines 47-54. -/
def brushedSteel : MaterialDefinition :=
  { name := "Brushed Steel", category := "metal", color := "#8a8a8a",
    metalness := 0.95, roughness := 0.35, envMapIntensity := some 0.8 }

/-- App.tsx lines 55-62. -/
def blackMetal : MaterialDefinition :=
  { name := "Anodized Black", category := "metal", color := "#1a1a1a",
    metalness := 0.9, roughness := 0.2, envMapIntensity := some 1.0 }

/-- App.tsx lines 65-72. -/
def glossyPlastic : MaterialDefinition :=
  { name := "Glossy Plastic", category := "plastic", color := "#ff3366",
    metalness := 0, roughness := 0.1, envMapIntensity := some 0.8 }

/-- App.tsx lines 73-80. -/
def mattePlastic : MaterialDefinition :=
  { name := "Matte Plastic", category := "plastic", color := "#3366ff",
    metalness := 0, roughness := 0.7, envMapIntensity := some 0.3 }

/-- App.tsx lines 81-88. -/
def satin : MaterialDefinition :=
  { name := "Satin Finish", category := "plastic", color := "#33ff66",
    metalness := 0, roughness := 0.4, envMapIntensity := some 0.5 }

/-- App.tsx lines 91-98. -/
def porcelain : MaterialDefinition :=
  { name := "Porcelain", category := "ceramic", color := "#f5f5f0",
    metalness := 0, roughness := 0.15, envMapIntensity := some 0.6 }

/-- App.tsx lines 99-106. -/
def ceramic : MaterialDefinition :=
  { name := "Glazed Ceramic", category := "ceramic", color := "#2255aa",
    metalness := 0.05, roughness := 0.08, envMapIntensity := some 0.7 }

/-- App.tsx lines 109-116. -/
def rubber : MaterialDefinition :=
  { name := "Rubber", category := "soft", color := "#222222",
    metalness := 0, roughness := 0.9, envMapIntensity := some 0.1 }

/-- App.tsx lines 117-124. -/
def velvet : MaterialDefinition :=
  { name := "Velvet", category := "soft", color := "#660033",
    metalness := 0, roughness := 0.95, envMapIntensity := some 0.05 }

/-- App.tsx lines 127-136. -/
def glass : MaterialDefinition :=
  { name := "Glass", category := "special", color := "#ffffff",
    metalness := 0, roughness := 0, transmission := some 0.95,
    thickness := some 0.5, envMapIntensity := some 1.0 }

/-- App.tsx lines 137-146. -/
def emission : MaterialDefinition :=
  { name := "Emissive", category := "special", color := "#02d7f2",
    metalness := 0, roughness := 0.5, emissive := some "#02d7f2",
    emissiveIntensity := some 2, envMapIntensity := some 0.3 }

/-- App.tsx lines 147-156. -/
def holographic : MaterialDefinition :=
  { name := "Holographic", category := "special", color := "#ff00ff",
    metalness := 1, roughness := 0.1, iridescence := some 1,
    iridescenceIOR := some 1.5, envMapIntensity := some 1.5 }

/-- The `materials` object as an association list in declaration order
(App.tsx lines 21-157). -/
def materialsList : List (String × MaterialDefinition) :=
  [("chrome", chrome), ("gold", gold), ("copper", copper),
   ("brushedSteel", brushedSteel), ("blackMetal", blackMetal),
   ("glossyPlastic", glossyPlastic), ("mattePlastic", mattePlastic),
   ("satin", satin), ("porcelain", porcelain), ("ceramic", ceramic),
   ("rubber", rubber), ("velvet", velvet), ("glass", glass),
   ("emission", emission), ("holographic", holographic)]

/-- `Object.keys(materials)` in declaration order. -/
def materialKeys : List String := materialsList.map Prod.fst

/-- Property access `materials[key]`. -/
def lookupMaterial (k : String) : Option MaterialDefinition :=
  materialsList.lookup k

/-- The `shapes` object: key to display label (App.tsx lines 162-171). -/
def shapesList : List (String × String) :=
  [("sphere", "Sphere"), ("cube", "Cube"), ("roundedBox", "Rounded Box"),
   ("torus", "Torus"), ("torusKnot", "Torus Knot"),
   ("icosahedron", "Icosahedron"), ("octahedron", "Octahedron"),
   ("dodecahedron", "Dodecahedron")]

/-- `Object.keys(shapes)` in declaration order. -/
def shapeKeys : List String := shapesList.map Prod.fst

/-- Property access `shapes[key]`. -/
def lookupShape (k : String) : Option String := shapesList.lookup k

/-- The `environments` object: key to preset name (App.tsx lines 176-187). -/
def environmentsList : List (String × String) :=
  [("studio", "studio"), ("city", "city"), ("sunset", "sunset"),
   ("dawn", "dawn"), ("night", "night"), ("forest", "forest"),
   ("apartment", "apartment"), ("warehouse", "warehouse"),
   ("park", "park"), ("lobby", "lobby")]

/-- `Object.keys(environments)` in declaration order. -/
def envKeys : List String := environmentsList.map Prod.fst

/-- Property access `environments[key]`. -/
def lookupEnvironment (k : String) : Option String :=
  environmentsList.lookup k

/-- JavaScript truthiness of an optional numeric field: `undefined` and `0`
are falsy, every other number is truthy. -/
def numTruthy : Option ℚ → Bool
  | none => false
  | some v => decide (v ≠ 0)

/-- JavaScript truthiness of an optional string field: `undefined` and the
empty string are falsy. -/
def stringTruthy : Option String → Bool
  | none => false
  | some s => !s.isEmpty

/-- Which of the two three.js material classes the `Shape` component picks. -/
inductive ShadingModel
  | standard
  | physical
deriving DecidableEq

/-- The JSX material element produced inside `Shape` (App.tsx lines 193-212):
either a `meshPhysicalMaterial` or a `meshStandardMaterial`, with exactly the
props the source writes on each.  Props the branch does not write are `none`. -/
structure ResolvedConfig where
  shadingModel : ShadingModel
  color : String
  metalness : ℚ
  roughness : ℚ
  envMapIntensity : Option ℚ := none
  transmission : Option ℚ := none
  thickness : Option ℚ := none
  iridescence : Option ℚ := none
  iridescenceIOR : Option ℚ := none
  emissive : Option String := none
  emissiveIntensity : Option ℚ := none
deriving DecidableEq

/-- The material-resolution logic of `Shape` (App.tsx lines 193-212):
`isPhysical = transmission || iridescence`; the physical branch forwards the
base props plus transmission, thickness, iridescence and iridescenceIOR and
never writes an emissive prop; the standard branch forwards the base props
plus `emissive` (when truthy) and `emissiveIntensity || 0`. -/
def resolve (d : MaterialDefinition) : ResolvedConfig :=
  if numTruthy d.transmission || numTruthy d.iridescence then
    { shadingModel := ShadingModel.physical
      color := d.color
      metalness := d.metalness
      roughness := d.roughness
      envMapIntensity := d.envMapIntensity
      transmission := d.transmission
      thickness := d.thickness
      iridescence := d.iridescence
      iridescenceIOR := d.iridescenceIOR
      emissive := none
      emissiveIntensity := none }
  else
    { shadingModel := ShadingModel.standard
      color := d.color
      metalness := d.metalness
      roughness := d.roughness
      envMapIntensity := d.envMapIntensity
      transmission := none
      thickness := none
      iridescence := none
      iridescenceIOR := none
      emissive := if stringTruthy d.emissive then d.emissive else none
      emissiveIntensity := some (d.emissiveIntensity.getD 0) }

/-- The geometry primitive chosen by the switch in `Shape`
(App.tsx lines 214-233). -/
inductive GeometryKind
  | sphere
  | box
  | roundedBox
  | torus
  | torusKnot
  | icosahedron
  | octahedron
  | dodecahedron
deriving DecidableEq

/-- The JSX element returned by `Shape`: a geometry primitive with its
construction args (plus radius/smoothness for the rounded box), carrying the
resolved material as its child. -/
structure ShapeNode where
  geometry : GeometryKind
  args : List ℚ
  radius : Option ℚ := none
  smoothness : Option ℕ := none
  material : ResolvedConfig
deriving DecidableEq

/-- The `Shape` component (App.tsx lines 192-234): resolves the material
props, then switches on the runtime shape value; unknown values fall through
to the `default` branch, a sphere with args `[1, 64, 64]`. -/
def Shape (shape : String) (materialProps : MaterialDefinition) : ShapeNode :=
  let material := resolve materialProps
  if shape = "sphere" then
    { geometry := GeometryKind.sphere, args := [1, 64, 64], material := material }
  else if shape = "cube" then
    { geometry := GeometryKind.box, args := [1.6, 1.6, 1.6], material := material }
  else if shape = "roundedBox" then
    { geometry := GeometryKind.roundedBox, args := [1.5, 1.5, 1.5],
      radius := some 0.15, smoothness := some 4, material := material }
  else if shape = "torus" then
    { geometry := GeometryKind.torus, args := [0.8, 0.35, 32, 64], material := material }
  else if shape = "torusKnot" then
    { geometry := GeometryKind.torusKnot, args := [0.7, 0.25, 128, 32], material := material }
  else if shape = "icosahedron" then
    { geometry := GeometryKind.icosahedron, args := [1, 0], material := material }
  else if shape = "octahedron" then
    { geometry := GeometryKind.octahedron, args := [1.2, 0], material := material }
  else if shape = "dodecahedron" then
    { geometry := GeometryKind.dodecahedron, args := [1, 0], material := material }
  else
    { geometry := GeometryKind.sphere, args := [1, 64, 64], material := material }

/-- The `EffectComposer` contents rendered when `showEffects` is on
(App.tsx lines 288-297). -/
structure PostProcessingStage where
  bloomLuminanceThreshold : ℚ
  bloomLuminanceSmoothing : ℚ
  bloomIntensity : ℚ
  vignetteEskil : Bool
  vignetteOffset : ℚ
  vignetteDarkness : ℚ
deriving DecidableEq

/-- Everything the `Scene` component renders (App.tsx lines 252-298), with
the numeric props of each element.  Polar angles are recorded as rational
multiples of pi: the source writes `Math.PI / 6` and `Math.PI / 2`. -/
structure SceneDescription where
  ambientIntensity : ℚ
  keyLightPosition : List ℚ
  keyLightIntensity : ℚ
  keyLightCastShadow : Bool
  fillLightPosition : List ℚ
  fillLightIntensity : ℚ
  fillLightColor : String
  environmentPreset : String
  environmentBackground : Bool
  environmentBlur : ℚ
  floatSpeed : ℚ
  floatRotationIntensity : ℚ
  floatIntensity : ℚ
  shape : ShapeNode
  contactShadowPosition : List ℚ
  contactShadowOpacity : ℚ
  contactShadowScale : ℚ
  contactShadowBlur : ℚ
  contactShadowFar : ℚ
  enablePan : Bool
  minDistance : ℚ
  maxDistance : ℚ
  minPolarAngleOverPi : ℚ
  maxPolarAngleOverPi : ℚ
  autoRotate : Bool
  autoRotateSpeed : ℚ
  postProcessing : Option PostProcessingStage
deriving DecidableEq

/-- The body of `Scene` once the material lookup succeeded: every element and
prop the component renders (App.tsx lines 252-298). -/
def sceneOf (mat : MaterialDefinition) (shape environment : String)
    (envBlur : ℚ) (showEffects : Bool) : SceneDescription :=
  { ambientIntensity := 0.2
    keyLightPosition := [5, 5, 5]
    keyLightIntensity := 0.5
    keyLightCastShadow := true
    fillLightPosition := [-5, 3, -5]
    fillLightIntensity := 0.3
    fillLightColor := "#ff9966"
    environmentPreset := environment
    environmentBackground := true
    environmentBlur := envBlur
    floatSpeed := 1.5
    floatRotationIntensity := 0.5
    floatIntensity := 0.5
    shape := Shape shape mat
    contactShadowPosition := [0, -1.5, 0]
    contactShadowOpacity := 0.5
    contactShadowScale := 8
    contactShadowBlur := 2
    contactShadowFar := 3
    enablePan := false
    minDistance := 2.5
    maxDistance := 8
    minPolarAngleOverPi := 1/6
    maxPolarAngleOverPi := 1/2
    autoRotate := true
    autoRotateSpeed := 0.5
    postProcessing :=
      if showEffects then
        some { bloomLuminanceThreshold := 0.8
               bloomLuminanceSmoothing := 0.9
               bloomIntensity := 0.4
               vignetteEskil := false
               vignetteOffset := 0.1
               vignetteDarkness := 0.5 }
      else none }

/-- The `Scene` component (App.tsx lines 237-300): looks the material key up
in the catalog (`materials[materialKey]`) and renders the scene body. -/
def Scene (shape materialKey environment : String) (envBlur : ℚ)
    (showEffects : Bool) : Option SceneDescription :=
  (lookupMaterial materialKey).map fun mat =>
    sceneOf mat shape environment envBlur showEffects

/-- The seven `useState` cells of `App` (App.tsx lines 321-327). -/
structure SelectionState where
  currentMaterial : String
  currentShape : String
  currentEnv : String
  envBlur : ℚ
  showEffects : Bool
  antialias : Bool
  panelOpen : Bool
deriving DecidableEq

/-- The initial selection: the `useState` defaults of `App`
(App.tsx lines 321-327). -/
def initialState : SelectionState :=
  { currentMaterial := "chrome"
    currentShape := "sphere"
    currentEnv := "studio"
    envBlur := 0.6
    showEffects := true
    antialias := true
    panelOpen := true }

/-- The `setEnvBlur` state setter (App.tsx line 324, called at line 422):
a plain whole-field replacement, with no transformation of its argument. -/
def setEnvBlur (v : ℚ) (s : SelectionState) : SelectionState :=
  { s with envBlur := v }

/-- Value sanitization of an HTML range input: the browser confines the
element value to the interval given by its `min` and `max` attributes.  The
blur slider (App.tsx lines 416-424) sets `min="0"` and `max="1"`, so the
values reaching `setEnvBlur` through it are already clamped. -/
def rangeInputClamp (lo hi v : ℚ) : ℚ := min hi (max lo v)

/-- How `App` wires its state into `Scene` (App.tsx lines 501-507). -/
def compose (sel : SelectionState) : Option SceneDescription :=
  Scene sel.currentShape sel.currentMaterial sel.currentEnv sel.envBlur
    sel.showEffects

/-- A nonnegative rational is nonzero exactly when it is positive. -/
theorem ne_zero_iff_pos_of_nonneg {v : ℚ} (h0 : 0 ≤ v) : v ≠ 0 ↔ 0 < v :=
  ⟨fun hn => h0.lt_of_ne (Ne.symm hn), fun hp => hp.ne'⟩

/-- The shading-model choice is exactly the `isPhysical` test of `Shape`. -/
theorem resolve_shadingModel_eq (d : MaterialDefinition) :
    (resolve d).shadingModel =
      if numTruthy d.transmission || numTruthy d.iridescence then
        ShadingModel.physical
      else ShadingModel.standard := by
  unfold resolve
  split <;> rfl

/-- The `isPhysical` test holds exactly when transmission or iridescence is
set to a positive value, provided the set values are nonnegative. -/
theorem isPhysical_iff (d : MaterialDefinition)
    (ht : 0 ≤ d.transmission.getD 0) (hi : 0 ≤ d.iridescence.getD 0) :
    (numTruthy d.transmission || numTruthy d.iridescence) = true ↔
      ((∃ v, d.transmission = some v ∧ 0 < v) ∨
       (∃ v, d.iridescence = some v ∧ 0 < v)) := by
  cases htr : d.transmission with
  | none =>
    cases hir : d.iridescence with
    | none => simp [numTruthy]
    | some w =>
      rw [hir] at hi
      simp only [Option.getD_some] at hi
      simp [numTruthy, ne_zero_iff_pos_of_nonneg hi]
  | some v =>
    rw [htr] at ht
    simp only [Option.getD_some] at ht
    cases hir : d.iridescence with
    | none => simp [numTruthy, ne_zero_iff_pos_of_nonneg ht]
    | some w =>
      rw [hir] at hi
      simp only [Option.getD_some] at hi
      simp [numTruthy, ne_zero_iff_pos_of_nonneg ht,
        ne_zero_iff_pos_of_nonneg hi]

/-- C1: resolving a material definition selects the physical shading model
if and only if its transmission is set greater than 0 or its iridescence is
set greater than 0; every other definition (in particular every purely
emissive one) resolves to the standard shading model.  Set values are
assumed nonnegative, as the data model bounds both fields to [0, 1]. -/
theorem resolve_physical_iff (d : MaterialDefinition)
    (ht : 0 ≤ d.transmission.getD 0) (hi : 0 ≤ d.iridescence.getD 0) :
    ((resolve d).shadingModel = ShadingModel.physical ↔
        ((∃ v, d.transmission = some v ∧ 0 < v) ∨
         (∃ v, d.iridescence = some v ∧ 0 < v))) ∧
    ((resolve d).shadingModel = ShadingModel.standard ↔
        ¬ ((∃ v, d.transmission = some v ∧ 0 < v) ∨
           (∃ v, d.iridescence = some v ∧ 0 < v))) := by
  rw [resolve_shadingModel_eq, ← isPhysical_iff d ht hi]
  cases hb : (numTruthy d.transmission || numTruthy d.iridescence) <;>
    simp [hb]

/-- Witness for C1 at the glass preset, whose transmission is 0.95. -/
theorem resolve_physical_iff_witness :
    (resolve glass).shadingModel = ShadingModel.physical ↔
      ((∃ v, glass.transmission = some v ∧ 0 < v) ∨
       (∃ v, glass.iridescence = some v ∧ 0 < v)) :=
  (resolve_physical_iff glass (by norm_num [glass]) (by norm_num [glass])).1

/-- C2 counterexample: the stored setter does not clamp.  Calling
`setEnvBlur` with -0.5 stores -0.5, not the 0 the claim requires. -/
theorem setEnvBlur_no_clamp :
    ¬ ((setEnvBlur (-0.5) initialState).envBlur = 0) := by
  norm_num [setEnvBlur, initialState]

/-- C2 (amended): `setEnvBlur` is a plain whole-field replacement with no
clamping of its own; the [0, 1] confinement comes from the slider element
whose `min`/`max` attributes are 0 and 1, so the value stored after a slider
change with raw value v is `min 1 (max 0 v)`. -/
theorem setEnvBlur_replace_slider_clamped (v : ℚ) (s : SelectionState) :
    (setEnvBlur v s).envBlur = v ∧
    (setEnvBlur (rangeInputClamp 0 1 v) s).envBlur = min 1 (max 0 v) :=
  ⟨rfl, rfl⟩

/-- C3: a definition that sets a positive transmission or iridescence
together with an emissive color resolves to the physical path, and the
output carries no emissive prop at all: both emissive fields are dropped. -/
theorem physical_drops_emissive (d : MaterialDefinition)
    (hfeat : (∃ v, d.transmission = some v ∧ 0 < v) ∨
             (∃ v, d.iridescence = some v ∧ 0 < v))
    (_hemis : d.emissive.isSome = true) :
    (resolve d).shadingModel = ShadingModel.physical ∧
    (resolve d).emissive = none ∧
    (resolve d).emissiveIntensity = none := by
  have hb : (numTruthy d.transmission || numTruthy d.iridescence) = true := by
    rcases hfeat with ⟨v, hv, hpos⟩ | ⟨v, hv, hpos⟩ <;>
      simp [numTruthy, hv, hpos.ne']
  simp [resolve, hb]

/-- A synthetic material setting both transmission and emissive fields; no
such entry exists in the catalog, so the edge case is exercised here. -/
def glowGlass : MaterialDefinition :=
  { name := "Glow Glass", category := "special", color := "#ffffff",
    metalness := 0, roughness := 0, transmission := some 0.5,
    emissive := some "#ff0000", emissiveIntensity := some 2 }

/-- Witness for C3 at the synthetic transmissive-and-emissive material. -/
theorem physical_drops_emissive_witness :
    (resolve glowGlass).shadingModel = ShadingModel.physical ∧
    (resolve glowGlass).emissive = none ∧
    (resolve glowGlass).emissiveIntensity = none :=
  physical_drops_emissive glowGlass (Or.inl ⟨0.5, rfl, by norm_num⟩) rfl

/-- C4: the resolver is total over the catalog and deterministic: every
catalog key looks up to a definition, and structurally identical definitions
resolve to structurally identical configurations. -/
theorem resolve_total_det :
    (∀ k, k ∈ materialKeys → ∃ d, lookupMaterial k = some d) ∧
    (∀ d₁ d₂ : MaterialDefinition, d₁ = d₂ → resolve d₁ = resolve d₂) := by
  constructor
  · intro k hk
    simp only [materialKeys, materialsList, List.map_cons, List.map_nil,
      List.mem_cons, List.not_mem_nil, or_false] at hk
    rcases hk with rfl | rfl | rfl | rfl | rfl | rfl | rfl | rfl | rfl |
      rfl | rfl | rfl | rfl | rfl | rfl <;> exact ⟨_, rfl⟩
  · intro d₁ d₂ h
    rw [h]

/-- Witness for C4 at the key "chrome" and the glass definition. -/
theorem resolve_total_det_witness :
    (∃ d, lookupMaterial "chrome" = some d) ∧
    resolve glass = resolve glass :=
  ⟨resolve_total_det.1 "chrome" (by decide),
   resolve_total_det.2 glass glass rfl⟩

/-- C5: for every material and selection, the composed scene carries the
fixed constants: key light 0.5, fill light 0.3, ambient 0.2, orbit distance
bounds [2.5, 8], polar-angle bounds [30 deg, 90 deg], and a post-processing
stage (bloom threshold 0.8, bloom intensity 0.4, vignette darkness 0.5)
present exactly when `showEffects` is on; `compose` is the catalog lookup
followed by this scene body. -/
theorem compose_fixed_constants (mat : MaterialDefinition)
    (sel : SelectionState) :
    compose sel = (lookupMaterial sel.currentMaterial).map
      (fun m => sceneOf m sel.currentShape sel.currentEnv sel.envBlur
        sel.showEffects) ∧
    (sceneOf mat sel.currentShape sel.currentEnv sel.envBlur
        sel.showEffects).keyLightIntensity = 0.5 ∧
    (sceneOf mat sel.currentShape sel.currentEnv sel.envBlur
        sel.showEffects).fillLightIntensity = 0.3 ∧
    (sceneOf mat sel.currentShape sel.currentEnv sel.envBlur
        sel.showEffects).ambientIntensity = 0.2 ∧
    (sceneOf mat sel.currentShape sel.currentEnv sel.envBlur
        sel.showEffects).minDistance = 2.5 ∧
    (sceneOf mat sel.currentShape sel.currentEnv sel.envBlur
        sel.showEffects).maxDistance = 8 ∧
    (sceneOf mat sel.currentShape sel.currentEnv sel.envBlur
        sel.showEffects).minPolarAngleOverPi * 180 = 30 ∧
    (sceneOf mat sel.currentShape sel.currentEnv sel.envBlur
        sel.showEffects).maxPolarAngleOverPi * 180 = 90 ∧
    ((sceneOf mat sel.currentShape sel.currentEnv sel.envBlur
        sel.showEffects).postProcessing.isSome = true ↔
      sel.showEffects = true) ∧
    (sceneOf mat sel.currentShape sel.currentEnv sel.envBlur
        sel.showEffects).postProcessing =
      (if sel.showEffects then
         some { bloomLuminanceThreshold := 0.8
                bloomLuminanceSmoothing := 0.9
                bloomIntensity := 0.4
                vignetteEskil := false
                vignetteOffset := 0.1
                vignetteDarkness := 0.5 }
       else none) := by
  refine ⟨rfl, rfl, rfl, rfl, rfl, rfl, by norm_num [sceneOf],
    by norm_num [sceneOf], ?_, rfl⟩
  cases hb : sel.showEffects <;> simp [sceneOf, hb]

/-- C6: the session starts with the defaults sphere / chrome / studio,
blur 0.6, effects on, antialias on, panel open, and composing that state
yields the standard shading model with metalness 1, roughness 0.05 and
environment intensity 1.5, with the post-processing stage included. -/
theorem initialState_defaults_compose :
    initialState.currentShape = "sphere" ∧
    initialState.currentMaterial = "chrome" ∧
    initialState.currentEnv = "studio" ∧
    initialState.envBlur = 0.6 ∧
    initialState.showEffects = true ∧
    initialState.antialias = true ∧
    initialState.panelOpen = true ∧
    ∃ desc, compose initialState = some desc ∧
      desc.shape.material.shadingModel = ShadingModel.standard ∧
      desc.shape.material.metalness = 1 ∧
      desc.shape.material.roughness = 0.05 ∧
      desc.shape.material.envMapIntensity = some 1.5 ∧
      desc.postProcessing.isSome = true := by
  exact ⟨rfl, rfl, rfl, rfl, rfl, rfl, rfl,
    sceneOf chrome "sphere" "studio" 0.6 true, rfl, rfl, rfl, rfl, rfl, rfl⟩

/-- C7: each catalog lists its keys in declaration order, and lookup
succeeds on every key its own enumeration returns. -/
theorem catalog_closure :
    materialKeys = ["chrome", "gold", "copper", "brushedSteel", "blackMetal",
      "glossyPlastic", "mattePlastic", "satin", "porcelain", "ceramic",
      "rubber", "velvet", "glass", "emission", "holographic"] ∧
    shapeKeys = ["sphere", "cube", "roundedBox", "torus", "torusKnot",
      "icosahedron", "octahedron", "dodecahedron"] ∧
    envKeys = ["studio", "city", "sunset", "dawn", "night", "forest",
      "apartment", "warehouse", "park", "lobby"] ∧
    (materialKeys.all fun k => (lookupMaterial k).isSome) = true ∧
    (shapeKeys.all fun k => (lookupShape k).isSome) = true ∧
    (envKeys.all fun k => (lookupEnvironment k).isSome) = true :=
  ⟨rfl, rfl, rfl, rfl, rfl, rfl⟩

/-- C8: over the catalog, every material resolved to the standard path with
no emissive color gets emissive intensity 0 (emission is a no-op), and when
an emissive color is set both it and the emissive intensity pass through. -/
theorem standard_emissive_passthrough :
    ∀ p ∈ materialsList,
      (resolve p.2).shadingModel = ShadingModel.standard →
      ((p.2.emissive = none → (resolve p.2).emissiveIntensity = some 0) ∧
       (p.2.emissive.isSome = true →
          (resolve p.2).emissive = p.2.emissive ∧
          (resolve p.2).emissiveIntensity =
            some (p.2.emissiveIntensity.getD 0))) := by
  intro p hp
  simp only [materialsList, List.mem_cons, List.not_mem_nil, or_false] at hp
  rcases hp with rfl | rfl | rfl | rfl | rfl | rfl | rfl | rfl | rfl |
    rfl | rfl | rfl | rfl | rfl | rfl <;>
    intro hstd <;>
    first
      | exact ⟨fun _ => rfl, fun h => by
          simp [chrome, gold, copper, brushedSteel, blackMetal,
            glossyPlastic, mattePlastic, satin, porcelain, ceramic,
            rubber, velvet] at h⟩
      | exact ⟨fun h => by simp [emission] at h, fun _ => ⟨rfl, rfl⟩⟩
      | exact absurd hstd
          (by norm_num [resolve, numTruthy, glass, holographic]; decide)

/-- Witness for C8 at the emissive preset, which is on the standard path
and sets both emissive fields. -/
theorem standard_emissive_passthrough_witness :
    (resolve emission).emissive = emission.emissive ∧
    (resolve emission).emissiveIntensity =
      some (emission.emissiveIntensity.getD 0) :=
  (standard_emissive_passthrough ("emission", emission)
    (by simp [materialsList]) rfl).2 rfl

/-- The transmission feature group of a definition: transmission or
thickness present. -/
def hasTransmissionGroup (d : MaterialDefinition) : Bool :=
  d.transmission.isSome || d.thickness.isSome

/-- The iridescence feature group of a definition: iridescence or
iridescenceIOR present. -/
def hasIridescenceGroup (d : MaterialDefinition) : Bool :=
  d.iridescence.isSome || d.iridescenceIOR.isSome

/-- The emissive feature group of a definition: emissive color or emissive
intensity present. -/
def hasEmissiveGroup (d : MaterialDefinition) : Bool :=
  d.emissive.isSome || d.emissiveIntensity.isSome

/-- How many of the three feature groups a definition populates. -/
def featureGroupCount (d : MaterialDefinition) : ℕ :=
  (if hasTransmissionGroup d then 1 else 0) +
  (if hasIridescenceGroup d then 1 else 0) +
  (if hasEmissiveGroup d then 1 else 0)

/-- C9: every catalog entry populates at most one feature group; glass has
only the transmission group, emission only the emissive group, holographic
only the iridescence group, and every other entry has none. -/
theorem catalog_single_feature_group :
    (materialsList.all fun p => decide (featureGroupCount p.2 ≤ 1)) = true ∧
    hasTransmissionGroup glass = true ∧
    hasIridescenceGroup glass = false ∧
    hasEmissiveGroup glass = false ∧
    hasEmissiveGroup emission = true ∧
    hasTransmissionGroup emission = false ∧
    hasIridescenceGroup emission = false ∧
    hasIridescenceGroup holographic = true ∧
    hasTransmissionGroup holographic = false ∧
    hasEmissiveGroup holographic = false ∧
    (materialsList.all fun p =>
      decide (p.1 = "glass" ∨ p.1 = "emission" ∨ p.1 = "holographic" ∨
        featureGroupCount p.2 = 0)) = true :=
  ⟨rfl, rfl, rfl, rfl, rfl, rfl, rfl, rfl, rfl, rfl, rfl⟩

/-- C10: the switch in `Shape` is total over arbitrary runtime shape values:
anything outside the eight catalog keys falls through to the default branch,
a sphere with args [1, 64, 64] carrying the resolved material. -/
theorem Shape_default (s : String) (d : MaterialDefinition)
    (hs : s ∉ shapeKeys) :
    Shape s d =
      { geometry := GeometryKind.sphere, args := [1, 64, 64],
        material := resolve d } := by
  simp only [shapeKeys, shapesList, List.map_cons, List.map_nil,
    List.mem_cons, List.not_mem_nil, or_false, not_or] at hs
  obtain ⟨h1, h2, h3, h4, h5, h6, h7, h8⟩ := hs
  simp [Shape, h1, h2, h3, h4, h5, h6, h7, h8]

/-- Witness for C10 at a shape value outside the catalog. -/
theorem Shape_default_witness :
    Shape "banana" chrome =
      { geometry := GeometryKind.sphere, args := [1, 64, 64],
        material := resolve chrome } :=
  Shape_default "banana" chrome (by decide)
